import Mathlib

/-!
Shallow embedding of the telemetry facade `pkg/telemetry/prometheus/rooms.go`.

Modelling choices, each tied to the source:

* The nine package-level mirror variables are Go `atomic.Int32` values; their
  `Inc`/`Dec` operations wrap around in twos-complement.  We model them as
  `Int` together with an explicit reduction `wrap32` into `[-2^31, 2^31)`
  applied at every update, so overflow behaves exactly as in Go.
* The Prometheus gauges and counters store `float64`, but every update the
  facade performs on them is `Add(1)`, `Sub(1)` or `Inc()` (a `+1`), so their
  values stay integral and `float64` arithmetic on them is exact far beyond
  any range reachable together with an int32 mirror; we model them as `Int`.
* Label vectors (`GaugeVec`, `CounterVec`) are total functions from the label
  strings to the cell value, zero-initialised, updated pointwise by
  `WithLabelValues`.
* The room-duration histogram is modelled by its list of observed values, in
  fractional seconds as exact rationals.  `time.Time` is modelled as `Nat`
  nanoseconds, with `0` as the zero time (`IsZero`); `time.Since(t)` at clock
  reading `now` is `now - t` nanoseconds, and the observed value is that
  duration divided by `10^9` (Go: `float64(time.Since(startedAt)) /
  float64(time.Second)`).
* A Go `error` interface value is `Option String` carrying the message;
  calling `err.Error()` on a `nil` interface panics, which we model by
  returning `none` from `RecordTrackSubscribeFailure`.
-/

namespace Rooms

/-- Reduction of an integer into the twos-complement int32 range
`[-2^31, 2^31)`; this is what Go `atomic.Int32` arithmetic computes. -/
def wrap32 (x : Int) : Int := (x + 2 ^ 31) % 2 ^ 32 - 2 ^ 31

/-- Go `atomic.Int32.Inc`: add one, wrapping. -/
def inc32 (x : Int) : Int := wrap32 (x + 1)

/-- Go `atomic.Int32.Dec`: subtract one, wrapping. -/
def dec32 (x : Int) : Int := wrap32 (x - 1)

/-- The package-level state of `rooms.go`: the nine `atomic.Int32` mirrors and
the registered Prometheus series (`promRoomDuration` as its observation
list). -/
structure MState where
  roomCurrent : Int
  participantCurrent : Int
  trackPublishedCurrent : Int
  trackSubscribedCurrent : Int
  trackPublishAttempts : Int
  trackPublishSuccess : Int
  trackSubscribeAttempts : Int
  trackSubscribeSuccess : Int
  trackSubscribeUserError : Int
  promRoomCurrent : Int
  promRoomDuration : List ℚ
  promParticipantCurrent : Int
  promTrackPublishedCurrent : String → Int
  promTrackSubscribedCurrent : String → Int
  promTrackPublishCounter : String → String → Int
  promTrackSubscribeCounter : String → String → Int

/-- State right after `initRoomStats`: mirrors zero-initialised at load time,
series freshly registered with every cell at zero and no observations. -/
def initState : MState where
  roomCurrent := 0
  participantCurrent := 0
  trackPublishedCurrent := 0
  trackSubscribedCurrent := 0
  trackPublishAttempts := 0
  trackPublishSuccess := 0
  trackSubscribeAttempts := 0
  trackSubscribeSuccess := 0
  trackSubscribeUserError := 0
  promRoomCurrent := 0
  promRoomDuration := []
  promParticipantCurrent := 0
  promTrackPublishedCurrent := fun _ => 0
  promTrackSubscribedCurrent := fun _ => 0
  promTrackPublishCounter := fun _ _ => 0
  promTrackSubscribeCounter := fun _ _ => 0

/-- One-label vector update: `WithLabelValues(k)` then add `d` to that cell. -/
def upd1 (f : String → Int) (k : String) (d : Int) : String → Int :=
  fun x => if x = k then f k + d else f x

/-- Two-label vector update: `WithLabelValues(a, b)` then add `d` to that
cell. -/
def upd2 (f : String → String → Int) (a b : String) (d : Int) :
    String → String → Int :=
  fun x y => if x = a ∧ y = b then f a b + d else f x y

/-- Go `RoomStarted`. -/
def RoomStarted (s : MState) : MState :=
  { s with promRoomCurrent := s.promRoomCurrent + 1
           roomCurrent := inc32 s.roomCurrent }

/-- Go `RoomEnded(startedAt)`, with the ambient clock reading `now` made an
explicit argument.  If `startedAt` is not the zero time, observe
`time.Since(startedAt)` in fractional seconds; then decrement gauge and
mirror. -/
def RoomEnded (startedAt now : Nat) (s : MState) : MState :=
  { s with promRoomDuration :=
             if startedAt ≠ 0 then
               s.promRoomDuration ++ [(((now : Int) - (startedAt : Int) : Int) : ℚ) / 1000000000]
             else s.promRoomDuration
           promRoomCurrent := s.promRoomCurrent - 1
           roomCurrent := dec32 s.roomCurrent }

/-- Go `AddParticipant`. -/
def AddParticipant (s : MState) : MState :=
  { s with promParticipantCurrent := s.promParticipantCurrent + 1
           participantCurrent := inc32 s.participantCurrent }

/-- Go `SubParticipant`. -/
def SubParticipant (s : MState) : MState :=
  { s with promParticipantCurrent := s.promParticipantCurrent - 1
           participantCurrent := dec32 s.participantCurrent }

/-- Go `AddPublishedTrack(kind)`. -/
def AddPublishedTrack (kind : String) (s : MState) : MState :=
  { s with promTrackPublishedCurrent := upd1 s.promTrackPublishedCurrent kind 1
           trackPublishedCurrent := inc32 s.trackPublishedCurrent }

/-- Go `SubPublishedTrack(kind)`. -/
def SubPublishedTrack (kind : String) (s : MState) : MState :=
  { s with promTrackPublishedCurrent := upd1 s.promTrackPublishedCurrent kind (-1)
           trackPublishedCurrent := dec32 s.trackPublishedCurrent }

/-- Go `AddPublishAttempt(kind)`. -/
def AddPublishAttempt (kind : String) (s : MState) : MState :=
  { s with trackPublishAttempts := inc32 s.trackPublishAttempts
           promTrackPublishCounter := upd2 s.promTrackPublishCounter kind "attempt" 1 }

/-- Go `AddPublishSuccess(kind)`. -/
def AddPublishSuccess (kind : String) (s : MState) : MState :=
  { s with trackPublishSuccess := inc32 s.trackPublishSuccess
           promTrackPublishCounter := upd2 s.promTrackPublishCounter kind "success" 1 }

/-- Go `RecordTrackSubscribeSuccess(kind)`: modifies both current and total
counters. -/
def RecordTrackSubscribeSuccess (kind : String) (s : MState) : MState :=
  { s with promTrackSubscribedCurrent := upd1 s.promTrackSubscribedCurrent kind 1
           trackSubscribedCurrent := inc32 s.trackSubscribedCurrent
           promTrackSubscribeCounter := upd2 s.promTrackSubscribeCounter "success" "" 1
           trackSubscribeSuccess := inc32 s.trackSubscribeSuccess }

/-- Go `RecordTrackUnsubscribed(kind)`: modifies the current counter only. -/
def RecordTrackUnsubscribed (kind : String) (s : MState) : MState :=
  { s with promTrackSubscribedCurrent := upd1 s.promTrackSubscribedCurrent kind (-1)
           trackSubscribedCurrent := dec32 s.trackSubscribedCurrent }

/-- Go `RecordTrackSubscribeAttempt`. -/
def RecordTrackSubscribeAttempt (s : MState) : MState :=
  { s with trackSubscribeAttempts := inc32 s.trackSubscribeAttempts
           promTrackSubscribeCounter := upd2 s.promTrackSubscribeCounter "attempt" "" 1 }

/-- Body of Go `RecordTrackSubscribeFailure` once `err.Error()` has produced
the message `errMsg`: bump the failure counter cell, and the user-error mirror
when flagged. -/
def recordTrackSubscribeFailureBody (errMsg : String) (isUserError : Bool)
    (s : MState) : MState :=
  { s with promTrackSubscribeCounter := upd2 s.promTrackSubscribeCounter "failure" errMsg 1
           trackSubscribeUserError :=
             if isUserError then inc32 s.trackSubscribeUserError
             else s.trackSubscribeUserError }

/-- Go `RecordTrackSubscribeFailure(err, isUserError)`.  The first statement
evaluates `err.Error()`; on a `nil` error interface that call panics, which we
model as `none`. -/
def RecordTrackSubscribeFailure (err : Option String) (isUserError : Bool)
    (s : MState) : Option MState :=
  match err with
  | none => none
  | some errMsg => some (recordTrackSubscribeFailureBody errMsg isUserError s)

/-- A completed call to one of the twelve event entry points, with its
arguments (timestamps in nanoseconds; a completed failure call necessarily
carried a non-nil error, recorded by its message). -/
inductive Event where
  | roomStarted
  | roomEnded (startedAt now : Nat)
  | addParticipant
  | subParticipant
  | addPublishedTrack (kind : String)
  | subPublishedTrack (kind : String)
  | addPublishAttempt (kind : String)
  | addPublishSuccess (kind : String)
  | recordTrackSubscribeAttempt
  | recordTrackSubscribeSuccess (kind : String)
  | recordTrackUnsubscribed (kind : String)
  | recordTrackSubscribeFailure (errMsg : String) (isUserError : Bool)

/-- Dispatch one completed entry-point call. -/
def applyEvent (s : MState) (e : Event) : MState :=
  match e with
  | .roomStarted => RoomStarted s
  | .roomEnded t now => RoomEnded t now s
  | .addParticipant => AddParticipant s
  | .subParticipant => SubParticipant s
  | .addPublishedTrack k => AddPublishedTrack k s
  | .subPublishedTrack k => SubPublishedTrack k s
  | .addPublishAttempt k => AddPublishAttempt k s
  | .addPublishSuccess k => AddPublishSuccess k s
  | .recordTrackSubscribeAttempt => RecordTrackSubscribeAttempt s
  | .recordTrackSubscribeSuccess k => RecordTrackSubscribeSuccess k s
  | .recordTrackUnsubscribed k => RecordTrackUnsubscribed k s
  | .recordTrackSubscribeFailure m b => recordTrackSubscribeFailureBody m b s

/-- Run a finite sequence of completed entry-point calls. -/
def runEvents (L : List Event) (s : MState) : MState := L.foldl applyEvent s

attribute [simp] applyEvent RoomStarted RoomEnded AddParticipant SubParticipant
  AddPublishedTrack SubPublishedTrack AddPublishAttempt AddPublishSuccess
  RecordTrackSubscribeAttempt RecordTrackSubscribeSuccess RecordTrackUnsubscribed
  recordTrackSubscribeFailureBody

/-! Arithmetic facts about the twos-complement int32 reduction used by the
`atomic.Int32` mirrors. -/

lemma wrap32_nonneg (x : Int) : -2 ^ 31 ≤ wrap32 x := by unfold wrap32; omega

lemma wrap32_lt (x : Int) : wrap32 x < 2 ^ 31 := by unfold wrap32; omega

lemma wrap32_eq_self {x : Int} (h1 : -2 ^ 31 ≤ x) (h2 : x < 2 ^ 31) : wrap32 x = x := by
  unfold wrap32; omega

lemma wrap32_wrap32_add (x d : Int) : wrap32 (wrap32 x + d) = wrap32 (x + d) := by
  unfold wrap32; omega

lemma wrap32_wrap32_sub (x d : Int) : wrap32 (wrap32 x - d) = wrap32 (x - d) := by
  unfold wrap32; omega

lemma inc32_ne (x : Int) : inc32 x ≠ x := by unfold inc32 wrap32; omega

lemma dec32_ne (x : Int) : dec32 x ≠ x := by unfold dec32 wrap32; omega

lemma dec32_eq_sub_one {x : Int} (h1 : -2 ^ 31 < x) (h2 : x < 2 ^ 31) : dec32 x = x - 1 := by
  unfold dec32 wrap32; omega

lemma inc32_of_lt {x : Int} (hx : -2 ^ 31 ≤ x) (h : x < inc32 x) : inc32 x = x + 1 := by
  unfold inc32 wrap32 at *; omega

lemma wrap32_le {x : Int} (h : -2 ^ 31 ≤ x) : wrap32 x ≤ x := by unfold wrap32; omega

lemma inc32_wrap32 (x : Int) : inc32 (wrap32 x) = wrap32 (x + 1) := by
  unfold inc32; exact wrap32_wrap32_add x 1

lemma dec32_wrap32 (x : Int) : dec32 (wrap32 x) = wrap32 (x - 1) := by
  unfold dec32; exact wrap32_wrap32_sub x 1

/-! Pointwise facts about labelled-vector cell updates. -/

lemma upd1_same (f : String → Int) (k : String) (d : Int) : upd1 f k d k = f k + d := by
  simp [upd1]

lemma upd1_other (f : String → Int) (k : String) (d : Int) (x : String) (h : x ≠ k) :
    upd1 f k d x = f x := by simp [upd1, h]

lemma upd2_same (f : String → String → Int) (a b : String) (d : Int) :
    upd2 f a b d a b = f a b + d := by simp [upd2]

lemma upd2_other (f : String → String → Int) (a b : String) (d : Int) (x y : String)
    (h : ¬(x = a ∧ y = b)) : upd2 f a b d x y = f x y := by
  simp only [upd2, if_neg h]

lemma le_upd2 (f : String → String → Int) (a b x y : String) : f x y ≤ upd2 f a b 1 x y := by
  unfold upd2
  by_cases h : x = a ∧ y = b
  · obtain ⟨rfl, rfl⟩ := h
    rw [if_pos ⟨rfl, rfl⟩]
    omega
  · rw [if_neg h]

/-! Event classification, used to state sequence-level properties. -/

def isRoomStarted : Event → Bool
  | .roomStarted => true
  | _ => false

def isRoomEnded : Event → Bool
  | .roomEnded _ _ => true
  | _ => false

def isAddParticipant : Event → Bool
  | .addParticipant => true
  | _ => false

def isSubParticipant : Event → Bool
  | .subParticipant => true
  | _ => false

def isSubscribeSuccess : Event → Bool
  | .recordTrackSubscribeSuccess _ => true
  | _ => false

def isFailure : Event → Bool
  | .recordTrackSubscribeFailure _ _ => true
  | _ => false

def isUserFailure : Event → Bool
  | .recordTrackSubscribeFailure _ true => true
  | _ => false

def isFailureMsg (m : String) : Event → Bool
  | .recordTrackSubscribeFailure mm _ => mm == m
  | _ => false

/-- Error messages carried by the failure events of a sequence, in order. -/
def failMsgs (L : List Event) : List String :=
  L.filterMap fun e =>
    match e with
    | .recordTrackSubscribeFailure m _ => some m
    | _ => none

lemma runEvents_nil (s : MState) : runEvents [] s = s := rfl

lemma runEvents_cons (e : Event) (L : List Event) (s : MState) :
    runEvents (e :: L) s = runEvents L (applyEvent s e) := rfl

/-! Effect of a single entry-point call on the room and participant series. -/

lemma applyEvent_promRoomCurrent (s : MState) (e : Event) :
    (applyEvent s e).promRoomCurrent =
      s.promRoomCurrent + (if isRoomStarted e then 1 else 0)
        - (if isRoomEnded e then 1 else 0) := by
  cases e <;> simp [isRoomStarted, isRoomEnded]

lemma applyEvent_roomCurrent_wrap (s : MState) (e : Event)
    (h : s.roomCurrent = wrap32 s.promRoomCurrent) :
    (applyEvent s e).roomCurrent = wrap32 (applyEvent s e).promRoomCurrent := by
  cases e <;> simp [h, inc32_wrap32, dec32_wrap32]

lemma applyEvent_promParticipantCurrent (s : MState) (e : Event) :
    (applyEvent s e).promParticipantCurrent =
      s.promParticipantCurrent + (if isAddParticipant e then 1 else 0)
        - (if isSubParticipant e then 1 else 0) := by
  cases e <;> simp [isAddParticipant, isSubParticipant]

lemma applyEvent_participantCurrent_wrap (s : MState) (e : Event)
    (h : s.participantCurrent = wrap32 s.promParticipantCurrent) :
    (applyEvent s e).participantCurrent = wrap32 (applyEvent s e).promParticipantCurrent := by
  cases e <;> simp [h, inc32_wrap32, dec32_wrap32]

lemma runEvents_promRoomCurrent (L : List Event) (s : MState) :
    (runEvents L s).promRoomCurrent =
      s.promRoomCurrent + (L.countP isRoomStarted : Int) - (L.countP isRoomEnded : Int) := by
  induction L generalizing s with
  | nil => simp [runEvents]
  | cons e L ih =>
      rw [runEvents_cons, ih, applyEvent_promRoomCurrent, List.countP_cons, List.countP_cons]
      push_cast
      split_ifs <;> omega

lemma runEvents_roomCurrent_wrap (L : List Event) (s : MState)
    (h : s.roomCurrent = wrap32 s.promRoomCurrent) :
    (runEvents L s).roomCurrent = wrap32 (runEvents L s).promRoomCurrent := by
  induction L generalizing s with
  | nil => exact h
  | cons e L ih => exact ih _ (applyEvent_roomCurrent_wrap s e h)

lemma runEvents_promParticipantCurrent (L : List Event) (s : MState) :
    (runEvents L s).promParticipantCurrent =
      s.promParticipantCurrent + (L.countP isAddParticipant : Int)
        - (L.countP isSubParticipant : Int) := by
  induction L generalizing s with
  | nil => simp [runEvents]
  | cons e L ih =>
      rw [runEvents_cons, ih, applyEvent_promParticipantCurrent, List.countP_cons,
        List.countP_cons]
      push_cast
      split_ifs <;> omega

lemma runEvents_participantCurrent_wrap (L : List Event) (s : MState)
    (h : s.participantCurrent = wrap32 s.promParticipantCurrent) :
    (runEvents L s).participantCurrent = wrap32 (runEvents L s).promParticipantCurrent := by
  induction L generalizing s with
  | nil => exact h
  | cons e L ih => exact ih _ (applyEvent_participantCurrent_wrap s e h)

/-! Effect of a single entry-point call on the subscribe counter series and
its mirrors. -/

lemma applyEvent_subSuccessCell (s : MState) (e : Event) :
    (applyEvent s e).promTrackSubscribeCounter "success" "" =
      s.promTrackSubscribeCounter "success" ""
        + (if isSubscribeSuccess e then 1 else 0) := by
  cases e <;> simp [isSubscribeSuccess, upd2]

lemma applyEvent_subSuccess_wrap (s : MState) (e : Event)
    (h : s.trackSubscribeSuccess = wrap32 (s.promTrackSubscribeCounter "success" "")) :
    (applyEvent s e).trackSubscribeSuccess =
      wrap32 ((applyEvent s e).promTrackSubscribeCounter "success" "") := by
  cases e <;> simp [h, upd2, inc32_wrap32]

lemma applyEvent_subCounter_mono (s : MState) (e : Event) (st er : String) :
    s.promTrackSubscribeCounter st er ≤ (applyEvent s e).promTrackSubscribeCounter st er := by
  cases e <;> simp <;> exact le_upd2 _ _ _ _ _

lemma applyEvent_pubCounter_mono (s : MState) (e : Event) (k st : String) :
    s.promTrackPublishCounter k st ≤ (applyEvent s e).promTrackPublishCounter k st := by
  cases e <;> simp <;> exact le_upd2 _ _ _ _ _

lemma runEvents_subSuccessCell (L : List Event) (s : MState) :
    (runEvents L s).promTrackSubscribeCounter "success" "" =
      s.promTrackSubscribeCounter "success" "" + (L.countP isSubscribeSuccess : Int) := by
  induction L generalizing s with
  | nil => simp [runEvents]
  | cons e L ih =>
      rw [runEvents_cons, ih, applyEvent_subSuccessCell, List.countP_cons]
      push_cast
      split_ifs <;> omega

lemma runEvents_subSuccess_wrap (L : List Event) (s : MState)
    (h : s.trackSubscribeSuccess = wrap32 (s.promTrackSubscribeCounter "success" "")) :
    (runEvents L s).trackSubscribeSuccess =
      wrap32 ((runEvents L s).promTrackSubscribeCounter "success" "") := by
  induction L generalizing s with
  | nil => exact h
  | cons e L ih => exact ih _ (applyEvent_subSuccess_wrap s e h)

lemma runEvents_subCounter_nonneg (L : List Event) (s : MState) (st er : String)
    (h : 0 ≤ s.promTrackSubscribeCounter st er) :
    0 ≤ (runEvents L s).promTrackSubscribeCounter st er := by
  induction L generalizing s with
  | nil => exact h
  | cons e L ih => exact ih _ (le_trans h (applyEvent_subCounter_mono s e st er))

/-! The user-error mirror and the failure cells of the subscribe counter. -/

lemma applyEvent_userError (s : MState) (e : Event) :
    (applyEvent s e).trackSubscribeUserError =
      if isUserFailure e = true then inc32 s.trackSubscribeUserError
      else s.trackSubscribeUserError := by
  cases e with
  | roomStarted => simp [isUserFailure]
  | roomEnded t n => simp [isUserFailure]
  | addParticipant => simp [isUserFailure]
  | subParticipant => simp [isUserFailure]
  | addPublishedTrack k => simp [isUserFailure]
  | subPublishedTrack k => simp [isUserFailure]
  | addPublishAttempt k => simp [isUserFailure]
  | addPublishSuccess k => simp [isUserFailure]
  | recordTrackSubscribeAttempt => simp [isUserFailure]
  | recordTrackSubscribeSuccess k => simp [isUserFailure]
  | recordTrackUnsubscribed k => simp [isUserFailure]
  | recordTrackSubscribeFailure m b => cases b <;> simp [isUserFailure]

lemma runEvents_userError (L : List Event) (s : MState) (n : Int)
    (h : s.trackSubscribeUserError = wrap32 n) :
    (runEvents L s).trackSubscribeUserError =
      wrap32 (n + (L.countP isUserFailure : Int)) := by
  induction L generalizing s n with
  | nil => simpa [runEvents] using h
  | cons e L ih =>
      rw [runEvents_cons, List.countP_cons]
      by_cases hu : isUserFailure e = true
      · have h2 : (applyEvent s e).trackSubscribeUserError = wrap32 (n + 1) := by
          rw [applyEvent_userError, if_pos hu, h, inc32_wrap32]
        rw [ih _ _ h2]
        congr 1
        simp [hu]
        ring
      · have h2 : (applyEvent s e).trackSubscribeUserError = wrap32 n := by
          rw [applyEvent_userError, if_neg hu, h]
        rw [ih _ _ h2]
        congr 1
        simp [hu]

lemma applyEvent_failCell (s : MState) (e : Event) (m : String) :
    (applyEvent s e).promTrackSubscribeCounter "failure" m =
      s.promTrackSubscribeCounter "failure" m
        + (if isFailureMsg m e then 1 else 0) := by
  cases e with
  | roomStarted => simp [isFailureMsg]
  | roomEnded t n => simp [isFailureMsg]
  | addParticipant => simp [isFailureMsg]
  | subParticipant => simp [isFailureMsg]
  | addPublishedTrack k => simp [isFailureMsg]
  | subPublishedTrack k => simp [isFailureMsg]
  | addPublishAttempt k => simp [isFailureMsg]
  | addPublishSuccess k => simp [isFailureMsg]
  | recordTrackSubscribeAttempt => simp [isFailureMsg, upd2]
  | recordTrackSubscribeSuccess k => simp [isFailureMsg, upd2]
  | recordTrackUnsubscribed k => simp [isFailureMsg]
  | recordTrackSubscribeFailure mm b =>
      by_cases h : mm = m
      · subst h; simp [isFailureMsg, upd2]
      · simp [isFailureMsg, upd2, h, Ne.symm h]

lemma runEvents_failCell (L : List Event) (s : MState) (m : String) :
    (runEvents L s).promTrackSubscribeCounter "failure" m =
      s.promTrackSubscribeCounter "failure" m + (L.countP (isFailureMsg m) : Int) := by
  induction L generalizing s with
  | nil => simp [runEvents]
  | cons e L ih =>
      rw [runEvents_cons, ih, applyEvent_failCell, List.countP_cons]
      push_cast
      split_ifs <;> omega

lemma countP_isFailureMsg (L : List Event) (m : String) :
    L.countP (isFailureMsg m) = (failMsgs L).count m := by
  induction L with
  | nil => rfl
  | cons e L ih =>
      cases e with
      | roomStarted => simp [failMsgs, isFailureMsg, List.countP_cons, ih]
      | roomEnded t n => simp [failMsgs, isFailureMsg, List.countP_cons, ih]
      | addParticipant => simp [failMsgs, isFailureMsg, List.countP_cons, ih]
      | subParticipant => simp [failMsgs, isFailureMsg, List.countP_cons, ih]
      | addPublishedTrack k => simp [failMsgs, isFailureMsg, List.countP_cons, ih]
      | subPublishedTrack k => simp [failMsgs, isFailureMsg, List.countP_cons, ih]
      | addPublishAttempt k => simp [failMsgs, isFailureMsg, List.countP_cons, ih]
      | addPublishSuccess k => simp [failMsgs, isFailureMsg, List.countP_cons, ih]
      | recordTrackSubscribeAttempt => simp [failMsgs, isFailureMsg, List.countP_cons, ih]
      | recordTrackSubscribeSuccess k => simp [failMsgs, isFailureMsg, List.countP_cons, ih]
      | recordTrackUnsubscribed k => simp [failMsgs, isFailureMsg, List.countP_cons, ih]
      | recordTrackSubscribeFailure mm b =>
          by_cases h : m = mm
          · subst h
            simp [failMsgs, isFailureMsg, List.countP_cons, List.count_cons, ih]
          · simp [failMsgs, isFailureMsg, List.countP_cons, List.count_cons, ih, h, Ne.symm h]

lemma failMsgs_cons_failure (m : String) (b : Bool) (L : List Event) :
    failMsgs (.recordTrackSubscribeFailure m b :: L) = m :: failMsgs L := by
  simp [failMsgs]

lemma failMsgs_cons_other (e : Event) (L : List Event) (h : isFailure e = false) :
    failMsgs (e :: L) = failMsgs L := by
  cases e <;> simp_all [failMsgs, isFailure]

lemma length_failMsgs (L : List Event) : (failMsgs L).length = L.countP isFailure := by
  induction L with
  | nil => rfl
  | cons e L ih =>
      cases e with
      | recordTrackSubscribeFailure m b =>
          rw [failMsgs_cons_failure, List.countP_cons]
          simp [isFailure, ih]
      | roomStarted =>
          rw [failMsgs_cons_other .roomStarted _ rfl, List.countP_cons]
          simp [isFailure, ih]
      | roomEnded t n =>
          rw [failMsgs_cons_other (.roomEnded t n) _ rfl, List.countP_cons]
          simp [isFailure, ih]
      | addParticipant =>
          rw [failMsgs_cons_other .addParticipant _ rfl, List.countP_cons]
          simp [isFailure, ih]
      | subParticipant =>
          rw [failMsgs_cons_other .subParticipant _ rfl, List.countP_cons]
          simp [isFailure, ih]
      | addPublishedTrack k =>
          rw [failMsgs_cons_other (.addPublishedTrack k) _ rfl, List.countP_cons]
          simp [isFailure, ih]
      | subPublishedTrack k =>
          rw [failMsgs_cons_other (.subPublishedTrack k) _ rfl, List.countP_cons]
          simp [isFailure, ih]
      | addPublishAttempt k =>
          rw [failMsgs_cons_other (.addPublishAttempt k) _ rfl, List.countP_cons]
          simp [isFailure, ih]
      | addPublishSuccess k =>
          rw [failMsgs_cons_other (.addPublishSuccess k) _ rfl, List.countP_cons]
          simp [isFailure, ih]
      | recordTrackSubscribeAttempt =>
          rw [failMsgs_cons_other .recordTrackSubscribeAttempt _ rfl, List.countP_cons]
          simp [isFailure, ih]
      | recordTrackSubscribeSuccess k =>
          rw [failMsgs_cons_other (.recordTrackSubscribeSuccess k) _ rfl, List.countP_cons]
          simp [isFailure, ih]
      | recordTrackUnsubscribed k =>
          rw [failMsgs_cons_other (.recordTrackUnsubscribed k) _ rfl, List.countP_cons]
          simp [isFailure, ih]

lemma countP_userFailure_le (L : List Event) :
    L.countP isUserFailure ≤ L.countP isFailure := by
  refine List.countP_mono_left fun e _ h => ?_
  cases e with
  | recordTrackSubscribeFailure m b => simp [isFailure]
  | roomStarted => simp [isUserFailure] at h
  | roomEnded t n => simp [isUserFailure] at h
  | addParticipant => simp [isUserFailure] at h
  | subParticipant => simp [isUserFailure] at h
  | addPublishedTrack k => simp [isUserFailure] at h
  | subPublishedTrack k => simp [isUserFailure] at h
  | addPublishAttempt k => simp [isUserFailure] at h
  | addPublishSuccess k => simp [isUserFailure] at h
  | recordTrackSubscribeAttempt => simp [isUserFailure] at h
  | recordTrackSubscribeSuccess k => simp [isUserFailure] at h
  | recordTrackUnsubscribed k => simp [isUserFailure] at h

lemma list_toFinset_sum_count (l : List String) :
    ∑ a ∈ l.toFinset, l.count a = l.length := by
  simp

lemma runEvents_failCell_init (L : List Event) (m : String) :
    (runEvents L initState).promTrackSubscribeCounter "failure" m =
      ((failMsgs L).count m : Int) := by
  rw [runEvents_failCell, countP_isFailureMsg]
  simp [initState]

lemma sum_failCells (L : List Event) :
    ∑ m ∈ (failMsgs L).toFinset,
        (runEvents L initState).promTrackSubscribeCounter "failure" m
      = ((failMsgs L).length : Int) := by
  rw [Finset.sum_congr rfl fun m _ => runEvents_failCell_init L m, ← Nat.cast_sum,
    list_toFinset_sum_count]

lemma countP_replicate_self {α : Type} (n : Nat) (a : α) (p : α → Bool) (h : p a = true) :
    (List.replicate n a).countP p = n := by
  induction n with
  | zero => rfl
  | succ j ih => simp [List.replicate_succ, List.countP_cons, ih, h]

lemma countP_replicate_not {α : Type} (n : Nat) (a : α) (p : α → Bool) (h : p a = false) :
    (List.replicate n a).countP p = 0 := by
  induction n with
  | zero => rfl
  | succ j ih => simp [List.replicate_succ, List.countP_cons, ih, h]

/-! Predicates used to state that a call updates (or leaves alone) the two
representations: the nine atomic mirrors, and the registered series. -/

/-- All nine atomic mirror variables agree between states `s` and `t`. -/
def mirrorsUnchanged (s t : MState) : Prop :=
  t.roomCurrent = s.roomCurrent ∧
  t.participantCurrent = s.participantCurrent ∧
  t.trackPublishedCurrent = s.trackPublishedCurrent ∧
  t.trackSubscribedCurrent = s.trackSubscribedCurrent ∧
  t.trackPublishAttempts = s.trackPublishAttempts ∧
  t.trackPublishSuccess = s.trackPublishSuccess ∧
  t.trackSubscribeAttempts = s.trackSubscribeAttempts ∧
  t.trackSubscribeSuccess = s.trackSubscribeSuccess ∧
  t.trackSubscribeUserError = s.trackSubscribeUserError

/-- Some registered series differs between states `s` and `t`. -/
def registryChanged (s t : MState) : Prop :=
  t.promRoomCurrent ≠ s.promRoomCurrent ∨
  t.promRoomDuration ≠ s.promRoomDuration ∨
  t.promParticipantCurrent ≠ s.promParticipantCurrent ∨
  (∃ k, t.promTrackPublishedCurrent k ≠ s.promTrackPublishedCurrent k) ∨
  (∃ k, t.promTrackSubscribedCurrent k ≠ s.promTrackSubscribedCurrent k) ∨
  (∃ k st, t.promTrackPublishCounter k st ≠ s.promTrackPublishCounter k st) ∨
  (∃ st er, t.promTrackSubscribeCounter st er ≠ s.promTrackSubscribeCounter st er)

/-- Whether an entry-point call writes any atomic mirror.  Reading the source,
every entry point does, except `RecordTrackSubscribeFailure` with
`isUserError = false`, whose only mirror write is guarded by the flag. -/
def touchesMirror : Event → Bool
  | .recordTrackSubscribeFailure _ false => false
  | _ => true

lemma registryChanged_applyEvent (s : MState) (e : Event) :
    registryChanged s (applyEvent s e) := by
  cases e with
  | roomStarted => exact Or.inl (by simp)
  | roomEnded t n => exact Or.inl (by simp)
  | addParticipant => exact Or.inr (Or.inr (Or.inl (by simp)))
  | subParticipant => exact Or.inr (Or.inr (Or.inl (by simp)))
  | addPublishedTrack k =>
      exact Or.inr (Or.inr (Or.inr (Or.inl ⟨k, by simp [upd1_same]⟩)))
  | subPublishedTrack k =>
      exact Or.inr (Or.inr (Or.inr (Or.inl ⟨k, by simp [upd1_same]⟩)))
  | addPublishAttempt k =>
      exact Or.inr (Or.inr (Or.inr (Or.inr (Or.inr (Or.inl
        ⟨k, "attempt", by simp [upd2_same]⟩)))))
  | addPublishSuccess k =>
      exact Or.inr (Or.inr (Or.inr (Or.inr (Or.inr (Or.inl
        ⟨k, "success", by simp [upd2_same]⟩)))))
  | recordTrackSubscribeAttempt =>
      exact Or.inr (Or.inr (Or.inr (Or.inr (Or.inr (Or.inr
        ⟨"attempt", "", by simp [upd2_same]⟩)))))
  | recordTrackSubscribeSuccess k =>
      exact Or.inr (Or.inr (Or.inr (Or.inr (Or.inr (Or.inr
        ⟨"success", "", by simp [upd2_same]⟩)))))
  | recordTrackUnsubscribed k =>
      exact Or.inr (Or.inr (Or.inr (Or.inr (Or.inl ⟨k, by simp [upd1_same]⟩))))
  | recordTrackSubscribeFailure m b =>
      exact Or.inr (Or.inr (Or.inr (Or.inr (Or.inr (Or.inr
        ⟨"failure", m, by simp [upd2_same]⟩)))))

lemma mirrors_change (s : MState) (e : Event) (h : touchesMirror e = true) :
    ¬ mirrorsUnchanged s (applyEvent s e) := by
  intro hm
  cases e with
  | roomStarted => exact inc32_ne _ (by simpa using hm.1)
  | roomEnded t n => exact dec32_ne _ (by simpa using hm.1)
  | addParticipant => exact inc32_ne _ (by simpa using hm.2.1)
  | subParticipant => exact dec32_ne _ (by simpa using hm.2.1)
  | addPublishedTrack k => exact inc32_ne _ (by simpa using hm.2.2.1)
  | subPublishedTrack k => exact dec32_ne _ (by simpa using hm.2.2.1)
  | addPublishAttempt k => exact inc32_ne _ (by simpa using hm.2.2.2.2.1)
  | addPublishSuccess k => exact inc32_ne _ (by simpa using hm.2.2.2.2.2.1)
  | recordTrackSubscribeAttempt => exact inc32_ne _ (by simpa using hm.2.2.2.2.2.2.1)
  | recordTrackSubscribeSuccess k => exact inc32_ne _ (by simpa using hm.2.2.2.1)
  | recordTrackUnsubscribed k => exact dec32_ne _ (by simpa using hm.2.2.2.1)
  | recordTrackSubscribeFailure m b =>
      cases b with
      | false => simp [touchesMirror] at h
      | true => exact inc32_ne _ (by simpa using hm.2.2.2.2.2.2.2.2)

lemma mirrors_fixed (s : MState) (e : Event) (h : touchesMirror e = false) :
    mirrorsUnchanged s (applyEvent s e) := by
  cases e with
  | recordTrackSubscribeFailure m b =>
      cases b with
      | true => simp [touchesMirror] at h
      | false => exact ⟨rfl, rfl, rfl, rfl, rfl, rfl, rfl, rfl, rfl⟩
  | roomStarted => simp [touchesMirror] at h
  | roomEnded t n => simp [touchesMirror] at h
  | addParticipant => simp [touchesMirror] at h
  | subParticipant => simp [touchesMirror] at h
  | addPublishedTrack k => simp [touchesMirror] at h
  | subPublishedTrack k => simp [touchesMirror] at h
  | addPublishAttempt k => simp [touchesMirror] at h
  | addPublishSuccess k => simp [touchesMirror] at h
  | recordTrackSubscribeAttempt => simp [touchesMirror] at h
  | recordTrackSubscribeSuccess k => simp [touchesMirror] at h
  | recordTrackUnsubscribed k => simp [touchesMirror] at h

lemma isUserFailure_eq (e : Event) (h : isUserFailure e = true) :
    ∃ msg, e = .recordTrackSubscribeFailure msg true := by
  cases e with
  | recordTrackSubscribeFailure m b =>
      cases b with
      | false => simp [isUserFailure] at h
      | true => exact ⟨m, rfl⟩
  | roomStarted => simp [isUserFailure] at h
  | roomEnded t n => simp [isUserFailure] at h
  | addParticipant => simp [isUserFailure] at h
  | subParticipant => simp [isUserFailure] at h
  | addPublishedTrack k => simp [isUserFailure] at h
  | subPublishedTrack k => simp [isUserFailure] at h
  | addPublishAttempt k => simp [isUserFailure] at h
  | addPublishSuccess k => simp [isUserFailure] at h
  | recordTrackSubscribeAttempt => simp [isUserFailure] at h
  | recordTrackSubscribeSuccess k => simp [isUserFailure] at h
  | recordTrackUnsubscribed k => simp [isUserFailure] at h

/-! Claim C1. -/

/-- C1, counterexample: the call `RecordTrackSubscribeFailure(err, false)` —
here with message "denied", from the freshly initialised state — performs its
registry-series update but leaves every one of the nine atomic mirrors
unchanged, refuting the claim that no entry-point invocation leaves every
atomic mirror unchanged. -/
theorem C1_counterexample :
    mirrorsUnchanged initState
        (applyEvent initState (.recordTrackSubscribeFailure "denied" false)) ∧
    registryChanged initState
        (applyEvent initState (.recordTrackSubscribeFailure "denied" false)) :=
  ⟨⟨rfl, rfl, rfl, rfl, rfl, rfl, rfl, rfl, rfl⟩,
   registryChanged_applyEvent initState (.recordTrackSubscribeFailure "denied" false)⟩

/-- C1, amended: every entry-point call performs a registry-series update, and
every entry-point call except `RecordTrackSubscribeFailure` with
`is_user_error = false` also performs an atomic-mirror update; that one call
leaves all nine mirrors unchanged. -/
theorem C1_registry_and_mirror_updates (e : Event) (s : MState) :
    registryChanged s (applyEvent s e) ∧
    (touchesMirror e = true → ¬ mirrorsUnchanged s (applyEvent s e)) ∧
    (touchesMirror e = false → mirrorsUnchanged s (applyEvent s e)) :=
  ⟨registryChanged_applyEvent s e, mirrors_change s e, mirrors_fixed s e⟩

/-- C1, witness: at the concrete call `RoomStarted()` from the initial state,
the registry changes and the mirrors do not all stay fixed. -/
theorem C1_witness :
    registryChanged initState (applyEvent initState .roomStarted) ∧
    ¬ mirrorsUnchanged initState (applyEvent initState .roomStarted) :=
  ⟨(C1_registry_and_mirror_updates .roomStarted initState).1,
   (C1_registry_and_mirror_updates .roomStarted initState).2.1 rfl⟩

/-! Claim C2. -/

/-- C2, counterexample: `RecordTrackSubscribeFailure` called with a nil error
interface evaluates `err.Error()` on nil and faults (modelled as `none`), so
not every entry-point call completes for every input. -/
theorem C2_counterexample :
    RecordTrackSubscribeFailure none false initState = none := rfl

/-- C2, amended: every event entry point is total — including `RoomEnded` on
the zero timestamp and arbitrary kind strings, which are plain total
functions here — except that `RecordTrackSubscribeFailure` completes exactly
when the supplied error is non-nil; with a nil error it panics in
`err.Error()`. -/
theorem C2_entry_points_total (err : Option String) (b : Bool) (s : MState) :
    (RecordTrackSubscribeFailure err b s).isSome = err.isSome := by
  cases err <;> rfl

/-! Claim C3. -/

/-- C3, counterexample: from a state whose `roomCurrent` mirror holds the
int32 minimum, `RoomEnded` wraps the mirror to `2^31 - 1` instead of
decreasing it by exactly 1. -/
theorem C3_counterexample :
    (RoomEnded 0 5 { initState with roomCurrent := -2 ^ 31 }).roomCurrent = 2 ^ 31 - 1 ∧
    ¬ ((RoomEnded 0 5 { initState with roomCurrent := -2 ^ 31 }).roomCurrent =
        ({ initState with roomCurrent := -2 ^ 31 } : MState).roomCurrent - 1) := by
  decide

/-- C3, amended: `RoomEnded(t)` with the zero timestamp records no observation
in the room-duration histogram, while with `t ≠ 0` it records exactly one
observation equal to `(now - t)` in fractional seconds; the room gauge
decreases by exactly 1 in every case, and the `roomCurrent` mirror decreases
by exactly 1 in int32 arithmetic — by exactly 1 whenever its value is not the
int32 minimum `-2^31`, at which it wraps around. -/
theorem C3_roomEnded_histogram_gauge_mirror (startedAt now : Nat) (s : MState) :
    (startedAt = 0 → (RoomEnded startedAt now s).promRoomDuration = s.promRoomDuration) ∧
    (startedAt ≠ 0 → (RoomEnded startedAt now s).promRoomDuration =
        s.promRoomDuration ++ [(((now : Int) - (startedAt : Int) : Int) : ℚ) / 1000000000]) ∧
    (RoomEnded startedAt now s).promRoomCurrent = s.promRoomCurrent - 1 ∧
    (RoomEnded startedAt now s).roomCurrent = dec32 s.roomCurrent ∧
    (-2 ^ 31 < s.roomCurrent → s.roomCurrent < 2 ^ 31 →
      (RoomEnded startedAt now s).roomCurrent = s.roomCurrent - 1) := by
  refine ⟨fun h => by simp [h], fun h => by simp [h], rfl, rfl, fun h1 h2 => ?_⟩
  exact dec32_eq_sub_one h1 h2

/-- C3, witness: ending a room started at nanosecond 2 with the clock at
nanosecond 5 records the single observation `3/10^9` seconds and decrements
both gauge and mirror from the initial state. -/
theorem C3_witness :
    (RoomEnded 2 5 initState).promRoomDuration =
        initState.promRoomDuration
          ++ [(((((5 : Nat) : Int) - ((2 : Nat) : Int)) : Int) : ℚ) / 1000000000] ∧
    (RoomEnded 0 5 initState).promRoomDuration = initState.promRoomDuration ∧
    (RoomEnded 2 5 initState).roomCurrent = initState.roomCurrent - 1 := by
  refine ⟨(C3_roomEnded_histogram_gauge_mirror 2 5 initState).2.1 (by decide),
    (C3_roomEnded_histogram_gauge_mirror 0 5 initState).1 rfl,
    (C3_roomEnded_histogram_gauge_mirror 2 5 initState).2.2.2.2 (by decide) (by decide)⟩

/-! Claim C4. -/

/-- C4, counterexample: after `2^31` `RoomStarted` calls from the initial
state the room gauge holds `2^31` while the int32 `roomCurrent` mirror has
wrapped to `-2^31`, so the two are not equal at the end of every finite
sequence. -/
theorem C4_counterexample :
    (runEvents (List.replicate (2 ^ 31) Event.roomStarted) initState).roomCurrent ≠
      (runEvents (List.replicate (2 ^ 31) Event.roomStarted) initState).promRoomCurrent := by
  have hr := runEvents_promRoomCurrent (List.replicate (2 ^ 31) .roomStarted) initState
  have hw := runEvents_roomCurrent_wrap (List.replicate (2 ^ 31) .roomStarted) initState
    (by decide)
  rw [countP_replicate_self _ _ _ rfl, countP_replicate_not _ _ _ rfl] at hr
  rw [hw, hr]
  simp only [initState]
  unfold wrap32
  omega

/-- C4, amended: for every finite sequence of entry-point calls from the
initial state, the room gauge equals the number of `RoomStarted` calls minus
the number of `RoomEnded` calls, the `roomCurrent` mirror equals that value
reduced to int32, and the two are equal whenever the net count lies within
the int32 range; the analogous statements hold for the participant gauge and
`participantCurrent` under `AddParticipant`/`SubParticipant`. -/
theorem C4_gauge_mirror_agreement (L : List Event) :
    (runEvents L initState).promRoomCurrent =
        (L.countP isRoomStarted : Int) - (L.countP isRoomEnded : Int) ∧
    (runEvents L initState).roomCurrent = wrap32 (runEvents L initState).promRoomCurrent ∧
    (-2 ^ 31 ≤ (runEvents L initState).promRoomCurrent →
      (runEvents L initState).promRoomCurrent < 2 ^ 31 →
      (runEvents L initState).roomCurrent = (runEvents L initState).promRoomCurrent) ∧
    (runEvents L initState).promParticipantCurrent =
        (L.countP isAddParticipant : Int) - (L.countP isSubParticipant : Int) ∧
    (runEvents L initState).participantCurrent =
        wrap32 (runEvents L initState).promParticipantCurrent ∧
    (-2 ^ 31 ≤ (runEvents L initState).promParticipantCurrent →
      (runEvents L initState).promParticipantCurrent < 2 ^ 31 →
      (runEvents L initState).participantCurrent =
        (runEvents L initState).promParticipantCurrent) := by
  have hr := runEvents_promRoomCurrent L initState
  have hwr := runEvents_roomCurrent_wrap L initState (by decide)
  have hp := runEvents_promParticipantCurrent L initState
  have hwp := runEvents_participantCurrent_wrap L initState (by decide)
  refine ⟨by simpa [initState] using hr, hwr,
    fun h1 h2 => by rw [hwr]; exact wrap32_eq_self h1 h2,
    by simpa [initState] using hp, hwp,
    fun h1 h2 => by rw [hwp]; exact wrap32_eq_self h1 h2⟩

/-- C4, witness: for the concrete one-call sequence `RoomStarted`, gauge and
mirror agree and equal the started-minus-ended count. -/
theorem C4_witness :
    (runEvents [Event.roomStarted] initState).promRoomCurrent =
        (([Event.roomStarted] : List Event).countP isRoomStarted : Int) -
          (([Event.roomStarted] : List Event).countP isRoomEnded : Int) ∧
    (runEvents [Event.roomStarted] initState).roomCurrent =
        (runEvents [Event.roomStarted] initState).promRoomCurrent ∧
    (runEvents [Event.roomStarted] initState).participantCurrent =
        (runEvents [Event.roomStarted] initState).promParticipantCurrent := by
  refine ⟨(C4_gauge_mirror_agreement [Event.roomStarted]).1,
    (C4_gauge_mirror_agreement [Event.roomStarted]).2.2.1 (by decide) (by decide),
    (C4_gauge_mirror_agreement [Event.roomStarted]).2.2.2.2.2 (by decide) (by decide)⟩

/-! Claim C5. -/

/-- C5, counterexample: after `2^31` `RecordTrackSubscribeSuccess` calls from
the initial state the counter cell `subscribe_counter{state="success",
error=""}` holds `2^31` while the int32 `trackSubscribeSuccess` mirror has
wrapped to `-2^31`, so the claimed equality fails for that sequence. -/
theorem C5_counterexample :
    (runEvents (List.replicate (2 ^ 31) (Event.recordTrackSubscribeSuccess "video"))
        initState).trackSubscribeSuccess ≠
      (runEvents (List.replicate (2 ^ 31) (Event.recordTrackSubscribeSuccess "video"))
        initState).promTrackSubscribeCounter "success" "" := by
  have hc := runEvents_subSuccessCell
    (List.replicate (2 ^ 31) (.recordTrackSubscribeSuccess "video")) initState
  have hw := runEvents_subSuccess_wrap
    (List.replicate (2 ^ 31) (.recordTrackSubscribeSuccess "video")) initState (by decide)
  rw [countP_replicate_self _ _ _ rfl] at hc
  rw [hw, hc]
  simp only [initState]
  unfold wrap32
  omega

/-- C5, amended: for every finite sequence of entry-point calls from the
initial state, `subscribe_counter{state="success", error=""}` equals the
`trackSubscribeSuccess` mirror reduced to int32, and the two are equal
whenever the success count is below `2^31`; and after the one-call sequence
`RecordTrackSubscribeSuccess("video")` with no prior attempt,
`trackSubscribeSuccess` exceeds `trackSubscribeAttempts`, so
`trackSubscribeSuccess ≤ trackSubscribeAttempts` is not an invariant. -/
theorem C5_success_counter_mirror (L : List Event) :
    (runEvents L initState).trackSubscribeSuccess =
        wrap32 ((runEvents L initState).promTrackSubscribeCounter "success" "") ∧
    ((runEvents L initState).promTrackSubscribeCounter "success" "" < 2 ^ 31 →
      (runEvents L initState).trackSubscribeSuccess =
        (runEvents L initState).promTrackSubscribeCounter "success" "") ∧
    (runEvents [Event.recordTrackSubscribeSuccess "video"] initState).trackSubscribeAttempts <
      (runEvents [Event.recordTrackSubscribeSuccess "video"] initState).trackSubscribeSuccess := by
  have hw := runEvents_subSuccess_wrap L initState (by decide)
  have hn := runEvents_subCounter_nonneg L initState "success" "" (by decide)
  exact ⟨hw, fun h2 => by rw [hw]; exact wrap32_eq_self (by omega) h2, by decide⟩

/-- C5, witness: for the concrete one-call sequence
`RecordTrackSubscribeSuccess("video")`, the counter cell and the mirror agree
and the success mirror exceeds the attempts mirror. -/
theorem C5_witness :
    (runEvents [Event.recordTrackSubscribeSuccess "video"] initState).trackSubscribeSuccess =
        (runEvents [Event.recordTrackSubscribeSuccess "video"]
          initState).promTrackSubscribeCounter "success" "" ∧
    (runEvents [Event.recordTrackSubscribeSuccess "video"] initState).trackSubscribeAttempts <
      (runEvents [Event.recordTrackSubscribeSuccess "video"] initState).trackSubscribeSuccess := by
  refine ⟨(C5_success_counter_mirror [Event.recordTrackSubscribeSuccess "video"]).2.1 (by decide),
    (C5_success_counter_mirror [Event.recordTrackSubscribeSuccess "video"]).2.2⟩

/-! Claim C6. -/

/-- C6, confirmed: for every finite sequence of entry-point calls from the
initial state, the `trackSubscribeUserError` mirror is at most the sum over
the error-label values of `subscribe_counter{state="failure", error}`; the
mirror changes only on `RecordTrackSubscribeFailure` calls flagged
`is_user_error = true`, and any increase is by exactly 1. -/
theorem C6_user_error_bound (L : List Event) :
    (runEvents L initState).trackSubscribeUserError ≤
        ∑ m ∈ (failMsgs L).toFinset,
          (runEvents L initState).promTrackSubscribeCounter "failure" m ∧
    (∀ e : Event,
      (applyEvent (runEvents L initState) e).trackSubscribeUserError ≠
          (runEvents L initState).trackSubscribeUserError →
        ∃ msg, e = .recordTrackSubscribeFailure msg true) ∧
    (∀ e : Event,
      (runEvents L initState).trackSubscribeUserError <
          (applyEvent (runEvents L initState) e).trackSubscribeUserError →
        (applyEvent (runEvents L initState) e).trackSubscribeUserError =
          (runEvents L initState).trackSubscribeUserError + 1) := by
  have hu := runEvents_userError L initState 0 (by decide)
  refine ⟨?_, ?_, ?_⟩
  · rw [sum_failCells, hu]
    have b1 : wrap32 (0 + (L.countP isUserFailure : Int)) ≤ 0 + (L.countP isUserFailure : Int) :=
      wrap32_le (by omega)
    have b2 : (L.countP isUserFailure : Int) ≤ ((failMsgs L).length : Int) := by
      rw [length_failMsgs]
      exact_mod_cast countP_userFailure_le L
    omega
  · intro e he
    rw [applyEvent_userError] at he
    by_cases hf : isUserFailure e = true
    · exact isUserFailure_eq e hf
    · rw [if_neg hf] at he
      exact absurd rfl he
  · intro e hlt
    rw [applyEvent_userError] at hlt ⊢
    by_cases hf : isUserFailure e = true
    · rw [if_pos hf] at hlt ⊢
      have hge : -2 ^ 31 ≤ (runEvents L initState).trackSubscribeUserError := by
        rw [hu]; exact wrap32_nonneg _
      exact inc32_of_lt hge hlt
    · rw [if_neg hf] at hlt
      exact absurd hlt (lt_irrefl _)

/-- C6, witness: for the concrete one-call sequence containing a user-flagged
failure with message "denied", the bound holds, the changing call is the
flagged failure, and the increase from the initial state is exactly 1. -/
theorem C6_witness :
    (runEvents [Event.recordTrackSubscribeFailure "denied" true] initState).trackSubscribeUserError ≤
        ∑ m ∈ (failMsgs [Event.recordTrackSubscribeFailure "denied" true]).toFinset,
          (runEvents [Event.recordTrackSubscribeFailure "denied" true]
            initState).promTrackSubscribeCounter "failure" m ∧
    (∃ msg, (Event.recordTrackSubscribeFailure "denied" true) =
        Event.recordTrackSubscribeFailure msg true) ∧
    (applyEvent (runEvents [] initState)
        (.recordTrackSubscribeFailure "denied" true)).trackSubscribeUserError =
      (runEvents [] initState).trackSubscribeUserError + 1 := by
  refine ⟨(C6_user_error_bound [Event.recordTrackSubscribeFailure "denied" true]).1,
    (C6_user_error_bound []).2.1 (.recordTrackSubscribeFailure "denied" true) (by decide),
    (C6_user_error_bound []).2.2 (.recordTrackSubscribeFailure "denied" true) (by decide)⟩

/-! Claim C7. -/

/-- C7, confirmed: no entry point ever decreases any cell of the
`publish_counter` or `subscribe_counter` series — after any single call with
any arguments, every cell is at least its previous value. -/
theorem C7_counters_never_decrease (e : Event) (s : MState) (k st er : String) :
    s.promTrackPublishCounter k st ≤ (applyEvent s e).promTrackPublishCounter k st ∧
    s.promTrackSubscribeCounter st er ≤ (applyEvent s e).promTrackSubscribeCounter st er :=
  ⟨applyEvent_pubCounter_mono s e k st, applyEvent_subCounter_mono s e st er⟩

/-! Claim C8. -/

/-- C8, counterexample: from a state whose `trackSubscribedCurrent` mirror
holds the int32 minimum, `RecordTrackUnsubscribed` wraps the mirror to
`2^31 - 1` instead of decrementing it by exactly 1. -/
theorem C8_counterexample :
    (RecordTrackUnsubscribed "audio"
        { initState with trackSubscribedCurrent := -2 ^ 31 }).trackSubscribedCurrent =
      2 ^ 31 - 1 ∧
    ¬ ((RecordTrackUnsubscribed "audio"
        { initState with trackSubscribedCurrent := -2 ^ 31 }).trackSubscribedCurrent =
      ({ initState with trackSubscribedCurrent := -2 ^ 31 } : MState).trackSubscribedCurrent
        - 1) := by
  decide

/-- C8, amended: `RecordTrackUnsubscribed(k)` decrements `subscribed_total{k}`
by exactly 1, decrements the `trackSubscribedCurrent` mirror in int32
arithmetic — by exactly 1 whenever its value is not the int32 minimum — and
leaves every cell of `subscribe_counter` and `publish_counter`, every other
series and every other mirror unchanged; and `RecordTrackSubscribeFailure`
never changes `subscribed_total` for any kind. -/
theorem C8_unsubscribe_frame (k : String) (s : MState) :
    (RecordTrackUnsubscribed k s).promTrackSubscribedCurrent k =
        s.promTrackSubscribedCurrent k - 1 ∧
    (∀ k2, k2 ≠ k → (RecordTrackUnsubscribed k s).promTrackSubscribedCurrent k2 =
        s.promTrackSubscribedCurrent k2) ∧
    (RecordTrackUnsubscribed k s).trackSubscribedCurrent = dec32 s.trackSubscribedCurrent ∧
    (-2 ^ 31 < s.trackSubscribedCurrent → s.trackSubscribedCurrent < 2 ^ 31 →
      (RecordTrackUnsubscribed k s).trackSubscribedCurrent = s.trackSubscribedCurrent - 1) ∧
    (∀ st er, (RecordTrackUnsubscribed k s).promTrackSubscribeCounter st er =
        s.promTrackSubscribeCounter st er) ∧
    (∀ k2 st, (RecordTrackUnsubscribed k s).promTrackPublishCounter k2 st =
        s.promTrackPublishCounter k2 st) ∧
    (∀ k2, (RecordTrackUnsubscribed k s).promTrackPublishedCurrent k2 =
        s.promTrackPublishedCurrent k2) ∧
    (RecordTrackUnsubscribed k s).promRoomCurrent = s.promRoomCurrent ∧
    (RecordTrackUnsubscribed k s).promRoomDuration = s.promRoomDuration ∧
    (RecordTrackUnsubscribed k s).promParticipantCurrent = s.promParticipantCurrent ∧
    (RecordTrackUnsubscribed k s).roomCurrent = s.roomCurrent ∧
    (RecordTrackUnsubscribed k s).participantCurrent = s.participantCurrent ∧
    (RecordTrackUnsubscribed k s).trackPublishedCurrent = s.trackPublishedCurrent ∧
    (RecordTrackUnsubscribed k s).trackPublishAttempts = s.trackPublishAttempts ∧
    (RecordTrackUnsubscribed k s).trackPublishSuccess = s.trackPublishSuccess ∧
    (RecordTrackUnsubscribed k s).trackSubscribeAttempts = s.trackSubscribeAttempts ∧
    (RecordTrackUnsubscribed k s).trackSubscribeSuccess = s.trackSubscribeSuccess ∧
    (RecordTrackUnsubscribed k s).trackSubscribeUserError = s.trackSubscribeUserError ∧
    (∀ msg b k2, (recordTrackSubscribeFailureBody msg b s).promTrackSubscribedCurrent k2 =
        s.promTrackSubscribedCurrent k2) := by
  refine ⟨by simp [upd1_same]; omega, fun k2 h => by simp [upd1_other _ _ _ _ h], rfl,
    fun h1 h2 => dec32_eq_sub_one h1 h2, fun st er => rfl, fun k2 st => rfl, fun k2 => rfl,
    rfl, rfl, rfl, rfl, rfl, rfl, rfl, rfl, rfl, rfl, rfl, fun msg b k2 => rfl⟩

/-- C8, witness: at the concrete call `RecordTrackUnsubscribed("audio")` from
the initial state, the mirror decrements by exactly 1, the gauge cell of another kind
cell is untouched, and the success cell of the subscribe counter is
untouched. -/
theorem C8_witness :
    (RecordTrackUnsubscribed "audio" initState).trackSubscribedCurrent =
        initState.trackSubscribedCurrent - 1 ∧
    (RecordTrackUnsubscribed "audio" initState).promTrackSubscribedCurrent "video" =
        initState.promTrackSubscribedCurrent "video" ∧
    (RecordTrackUnsubscribed "audio" initState).promTrackSubscribeCounter "success" "" =
        initState.promTrackSubscribeCounter "success" "" := by
  refine ⟨(C8_unsubscribe_frame "audio" initState).2.2.2.1 (by decide) (by decide),
    (C8_unsubscribe_frame "audio" initState).2.1 "video" (by decide),
    (C8_unsubscribe_frame "audio" initState).2.2.2.2.1 "success" ""⟩

/-! Claim C9. -/

/-- C9, confirmed: one `SubParticipant` call from the zero-initialised state
leaves the `participantCurrent` mirror and the participant gauge at exactly
`-1`, the mirror value being the int32 reduction of `0 - 1`. -/
theorem C9_decrement_below_zero :
    (SubParticipant initState).participantCurrent = -1 ∧
    (SubParticipant initState).promParticipantCurrent = -1 ∧
    (SubParticipant initState).participantCurrent = wrap32 (0 - 1) := by
  decide

/-! Claim C10. -/

/-- The state `t` differs from `s` at most in the publish counter cell
`(k, st)`, which grew by exactly 1, and in the publish mirrors (handled
separately by the caller): every other series, gauge and mirror agrees. -/
def onlyPublishCounterTouched (k st : String) (s t : MState) : Prop :=
  t.promTrackPublishCounter k st = s.promTrackPublishCounter k st + 1 ∧
  (∀ k2 st2, ¬(k2 = k ∧ st2 = st) →
    t.promTrackPublishCounter k2 st2 = s.promTrackPublishCounter k2 st2) ∧
  (∀ k2, t.promTrackPublishedCurrent k2 = s.promTrackPublishedCurrent k2) ∧
  (∀ k2, t.promTrackSubscribedCurrent k2 = s.promTrackSubscribedCurrent k2) ∧
  (∀ st2 er, t.promTrackSubscribeCounter st2 er = s.promTrackSubscribeCounter st2 er) ∧
  t.promRoomCurrent = s.promRoomCurrent ∧
  t.promRoomDuration = s.promRoomDuration ∧
  t.promParticipantCurrent = s.promParticipantCurrent ∧
  t.roomCurrent = s.roomCurrent ∧
  t.participantCurrent = s.participantCurrent ∧
  t.trackPublishedCurrent = s.trackPublishedCurrent ∧
  t.trackSubscribedCurrent = s.trackSubscribedCurrent ∧
  t.trackSubscribeAttempts = s.trackSubscribeAttempts ∧
  t.trackSubscribeSuccess = s.trackSubscribeSuccess ∧
  t.trackSubscribeUserError = s.trackSubscribeUserError

/-- C10, confirmed: `AddPublishAttempt(k)` modifies only the
`trackPublishAttempts` mirror and `publish_counter{kind=k, state="attempt"}`,
and `AddPublishSuccess(k)` modifies only the `trackPublishSuccess` mirror and
`publish_counter{kind=k, state="success"}`; in particular neither touches
`published_total`, `trackPublishedCurrent`, or any other series, gauge or
mirror, and each does change its own mirror and cell. -/
theorem C10_publish_frame (k : String) (s : MState) :
    onlyPublishCounterTouched k "attempt" s (AddPublishAttempt k s) ∧
    (AddPublishAttempt k s).trackPublishAttempts = inc32 s.trackPublishAttempts ∧
    (AddPublishAttempt k s).trackPublishAttempts ≠ s.trackPublishAttempts ∧
    (AddPublishAttempt k s).trackPublishSuccess = s.trackPublishSuccess ∧
    onlyPublishCounterTouched k "success" s (AddPublishSuccess k s) ∧
    (AddPublishSuccess k s).trackPublishSuccess = inc32 s.trackPublishSuccess ∧
    (AddPublishSuccess k s).trackPublishSuccess ≠ s.trackPublishSuccess ∧
    (AddPublishSuccess k s).trackPublishAttempts = s.trackPublishAttempts := by
  refine ⟨⟨by simp [upd2_same], fun k2 st2 h => by simp [upd2_other _ _ _ _ _ _ h],
      fun k2 => rfl, fun k2 => rfl, fun st2 er => rfl,
      rfl, rfl, rfl, rfl, rfl, rfl, rfl, rfl, rfl, rfl⟩,
    rfl, inc32_ne _, rfl,
    ⟨by simp [upd2_same], fun k2 st2 h => by simp [upd2_other _ _ _ _ _ _ h],
      fun k2 => rfl, fun k2 => rfl, fun st2 er => rfl,
      rfl, rfl, rfl, rfl, rfl, rfl, rfl, rfl, rfl, rfl⟩,
    rfl, inc32_ne _, rfl⟩

/-- C10, witness: at the concrete call `AddPublishAttempt("audio")` from the
initial state, the attempt cell for "audio" grows by 1 while the attempt cell
for "video" and the published gauge for "audio" are untouched. -/
theorem C10_witness :
    (AddPublishAttempt "audio" initState).promTrackPublishCounter "audio" "attempt" =
        initState.promTrackPublishCounter "audio" "attempt" + 1 ∧
    (AddPublishAttempt "audio" initState).promTrackPublishCounter "video" "attempt" =
        initState.promTrackPublishCounter "video" "attempt" ∧
    (AddPublishAttempt "audio" initState).promTrackPublishedCurrent "audio" =
        initState.promTrackPublishedCurrent "audio" := by
  refine ⟨(C10_publish_frame "audio" initState).1.1,
    (C10_publish_frame "audio" initState).1.2.1 "video" "attempt" (by decide),
    (C10_publish_frame "audio" initState).1.2.2.1 "audio"⟩

end Rooms
